import Mathlib

/-
Verification development for the Girea System 3000 BLE integration.

Shallow embedding of the code in src/gira_ble.py:
  - the frame codec (_generate_command, generate_position_command),
  - the broadcast decoder (parse_gira_broadcast),
  - the connection session (GiraBLEClient.send_command), modelled as a pure
    function over an explicit session state and a per-run transport oracle
    describing the outcome of every external BLE operation, producing the
    result, the final state and the trace of transport-level operations,
  - the broadcast ingestion path (GiraBLEClient.handle_broadcast); the host
    update coordinator it pushes into is external framework code and is
    modelled from the spec.

Byte strings are modelled as List Nat (a Python bytes object guarantees each
entry is below 256; hypotheses state that bound where a claim needs it).
-/

namespace Gira

/-- GATT characteristic UUID from the source. -/
def GIRA_COMMAND_CHARACTERISTIC_UUID : String := "97696341-f77a-43ae-8c35-09f0c5245308"

/-- Source constant `COMMAND_PREFIX = bytearray.fromhex("F6032001")`
(renamed to HEADER here; the leading four command bytes). -/
def COMMAND_HEADER : List Nat := [0xF6, 0x03, 0x20, 0x01]

/-- Source constant `COMMAND_SUFFIX = bytearray.fromhex("1001")`. -/
def COMMAND_SUFFIX : List Nat := [0x10, 0x01]

/-- Property id for Up/Down commands. -/
def PROPERTY_ID_MOVE : Nat := 0xFF

/-- Property id for the Stop command. -/
def PROPERTY_ID_STOP : Nat := 0xFD

/-- Property id for Step Up/Down commands. -/
def PROPERTY_ID_STEP : Nat := 0xFE

/-- Property id for absolute position commands. -/
def PROPERTY_ID_SET_POSITION : Nat := 0xFC

/-- Value byte for the up direction. -/
def VALUE_UP : Nat := 0x00

/-- Value byte for the down direction. -/
def VALUE_DOWN : Nat := 0x01

/-- Value byte used by the stop command. -/
def VALUE_STOP : Nat := 0x00

/-- Manufacturer identifier of Gira broadcasts. -/
def GIRA_MANUFACTURER_ID : Nat := 1412

/-- Source constant `BROADCAST_PREFIX = bytearray.fromhex("F7032001F61001")`
(renamed to HEADER here; the leading seven bytes of a position broadcast). -/
def BROADCAST_HEADER : List Nat := [0xF7, 0x03, 0x20, 0x01, 0xF6, 0x10, 0x01]

/-- Embedding of Python `round(a / b)` for natural `a`, `b` as round-half-up on
the exact rational, `(2 * a + b) / (2 * b)` in integer arithmetic.  Python
rounds halves to even on the float value of `a / b`, which differs from
round-half-up only at a tie.  For the one family of quotients this file takes,
`round(100 * (255 - raw) / 255)` with `raw` in [0, 255], a tie is impossible:
`100 * (255 - raw) / 255 = k + 1/2` would need `200 * (255 - raw)`, an even
number, to equal `255 * (2 * k + 1)`, an odd number; and the float evaluation
of the quotient errs by far less than the distance `1/510` to the nearest
half-integer, so the float never crosses a tie either.  On every input that
occurs, this definition and Python `round` agree. -/
def pyRound (a b : Nat) : Nat := (2 * a + b) / (2 * b)

/-- The advertisement data handed to the decoder: the `manufacturer_data`
dictionary of a `BluetoothServiceInfoBleak`, modelled as an association list
from manufacturer id to payload bytes. -/
structure BluetoothServiceInfoBleak where
  manufacturer_data : List (Nat × List Nat)
deriving DecidableEq, Repr

/-- Python `dict.get`: the value at the first matching key, else none. -/
def dict_get (d : List (Nat × List Nat)) (k : Nat) : Option (List Nat) :=
  (d.find? (fun p => p.1 == k)).map Prod.snd

/-- Embedding of `parse_gira_broadcast` (src/gira_ble.py lines 44-77):
look up manufacturer id 1412; `if not manufacturer_data` rejects a missing or
empty payload; then the payload must start with the 7-byte broadcast header
and have length exactly 8; the position is decoded from the byte at index 7
by `round(100 * (255 - position_byte) / 255)`.  The index-7 access is guarded
by the length check, so `getD` is exact. -/
def parse_gira_broadcast (service_info : BluetoothServiceInfoBleak) : Option Nat :=
  match dict_get service_info.manufacturer_data GIRA_MANUFACTURER_ID with
  | none => none
  | some manufacturer_data =>
    if manufacturer_data.isEmpty then none
    else if !(BROADCAST_HEADER.isPrefixOf manufacturer_data)
            || manufacturer_data.length != 8 then none
    else some (pyRound (100 * (255 - manufacturer_data.getD 7 0)) 255)

/-- Python `n.to_bytes(1, big)`: the one-byte encoding, raising OverflowError
when the value does not fit in one byte. -/
def to_bytes_1 (n : Nat) : Except String (List Nat) :=
  if n ≤ 255 then .ok [n] else .error "OverflowError: int too big to convert"

/-- Embedding of `_generate_command` (src/gira_ble.py lines 80-87):
prefix + property id byte + suffix + value byte; the first failing
`to_bytes` raises. -/
def _generate_command (property_id value : Nat) : Except String (List Nat) :=
  match to_bytes_1 property_id with
  | .error e => .error e
  | .ok p =>
    match to_bytes_1 value with
    | .error e => .error e
    | .ok v => .ok (COMMAND_HEADER ++ p ++ COMMAND_SUFFIX ++ v)

/-- Embedding of `generate_position_command` (src/gira_ble.py lines 89-93):
raise ValueError unless 0 <= percentage <= 100, else encode a SET_POSITION
command.  The argument is an integer, possibly negative, hence Int. -/
def generate_position_command (percentage : Int) : Except String (List Nat) :=
  if ¬(0 ≤ percentage ∧ percentage ≤ 100) then
    .error "Percentage must be between 0 and 100."
  else
    _generate_command PROPERTY_ID_SET_POSITION percentage.toNat

/-- Frame sent by `GiraBLEClient.send_up_command`. -/
def send_up_command_frame : Except String (List Nat) :=
  _generate_command PROPERTY_ID_MOVE VALUE_UP

/-- Frame sent by `GiraBLEClient.send_down_command`. -/
def send_down_command_frame : Except String (List Nat) :=
  _generate_command PROPERTY_ID_MOVE VALUE_DOWN

/-- Frame sent by `GiraBLEClient.send_stop_command`. -/
def send_stop_command_frame : Except String (List Nat) :=
  _generate_command PROPERTY_ID_STOP VALUE_STOP

/-- Frame sent by `GiraBLEClient.send_step_up_command`. -/
def send_step_up_command_frame : Except String (List Nat) :=
  _generate_command PROPERTY_ID_STEP VALUE_UP

/-- Frame sent by `GiraBLEClient.send_step_down_command`. -/
def send_step_down_command_frame : Except String (List Nat) :=
  _generate_command PROPERTY_ID_STEP VALUE_DOWN

/-- Frame sent by `GiraBLEClient.set_absolute_position`. -/
def set_absolute_position_frame (percentage : Int) : Except String (List Nat) :=
  generate_position_command percentage

/-- Frame sent by `GiraBLEClient.set_ventilation_position`. -/
def set_ventilation_position_frame : Except String (List Nat) :=
  generate_position_command 50

/-- A BLE connection handle (a BleakClient instance), identified abstractly. -/
abbrev Handle := Nat

/-- A transport-layer exception: BleakError with its message, or
asyncio.TimeoutError.  The source catches exactly these two. -/
inductive TransportError where
  | bleak (msg : String)
  | timeout
deriving DecidableEq, Repr

/-- Python `str(e)` for the two caught exception types (TimeoutError
stringifies to the empty string). -/
def errStr : TransportError → String
  | .bleak msg => msg
  | .timeout => ""

/-- An exception escaping `send_command`: the UpdateFailed the method raises
itself, or a transport exception it lets propagate. -/
inductive PyError where
  | updateFailed (msg : String)
  | transport (e : TransportError)
deriving DecidableEq, Repr

/-- The mutable state of one `GiraBLEClient` that `send_command` reads and
writes: the name and address fixed at construction and the cached
`self._client` handle (None initially). -/
structure Session where
  name : String
  address : String
  client : Option Handle
deriving DecidableEq, Repr

/-- An observable transport-level operation awaited by `send_command`,
recorded in order of occurrence. -/
inductive Event where
  | resolveDevice (address : String)
  | establishConnection (timeout maxAttempts : Nat)
  | writeChar (h : Handle) (uuid : String) (data : List Nat) (response : Bool)
  | disconnect (h : Handle)
deriving DecidableEq, Repr

/-- The environment of one `send_command` run: the outcome of each external
BLE operation the run may await, fixed up front (a deterministic oracle).
`none` for an Option TransportError field means the operation succeeds. -/
structure Transport where
  /-- Value of `self._client.is_connected` at the warm-path check. -/
  warmConnected : Bool
  /-- Outcome of the warm-path unacknowledged `write_gatt_char`. -/
  warmWrite : Option TransportError
  /-- Outcome of the warm-path `self._client.disconnect()`. -/
  warmDisconnect : Option TransportError
  /-- Whether `async_ble_device_from_address` finds the device. -/
  resolved : Bool
  /-- Outcome of `establish_connection`: some error after the bounded attempts
  are exhausted, or none when it hands back `freshHandle`. -/
  establishErr : Option TransportError
  /-- The handle `establish_connection` returns on success. -/
  freshHandle : Handle
  /-- Outcome of the acknowledged `write_gatt_char` on the fresh handle. -/
  ackWrite : Option TransportError
  /-- Value of `client.is_connected` in the finally block. -/
  finalConnected : Bool
  /-- Outcome of `client.disconnect()` in the finally block. -/
  finalDisconnect : Option TransportError
deriving DecidableEq, Repr

/-- Decidable equality of Except values, for evaluating run results. -/
instance {ε α : Type} [DecidableEq ε] [DecidableEq α] : DecidableEq (Except ε α) := fun a b =>
  match a, b with
  | .ok x, .ok y =>
    if h : x = y then .isTrue (by rw [h]) else .isFalse (by simp [h])
  | .error x, .error y =>
    if h : x = y then .isTrue (by rw [h]) else .isFalse (by simp [h])
  | .ok _, .error _ => .isFalse (by simp)
  | .error _, .ok _ => .isFalse (by simp)

/-- Result of one `send_command` run: the value returned or exception raised,
the final session state, and the trace of transport operations awaited. -/
structure SendResult where
  result : Except PyError Unit
  session : Session
  trace : List Event
deriving DecidableEq, Repr

/-- Embedding of the non-warm part of `send_command` (src/gira_ble.py lines
154-187), entered after the warm path was skipped or fell through:
resolve the device (raise UpdateFailed "not found" when unresolved, before the
try block, leaving the cached handle untouched); then, inside try/finally,
establish a connection with timeout 10 and max_attempts 3 (a failure is
re-raised as UpdateFailed and the finally block sees the local `client` still
None, so it only clears `self._client`); on success cache the handle, perform
the acknowledged write (response=True; a failure is re-raised as
UpdateFailed); the finally block disconnects the local handle when it still
reports connected — that disconnect is not guarded, so its own exception
propagates and skips the `self._client = None` that follows it. -/
def send_command_fresh (s : Session) (t : Transport) (command : List Nat)
    (ev : List Event) : SendResult :=
  if !t.resolved then
    { result := .error (.updateFailed ("Device " ++ s.name ++ " not found.")),
      session := s,
      trace := ev ++ [Event.resolveDevice s.address] }
  else
    match t.establishErr with
    | some e =>
      { result := .error (.updateFailed
          ("Failed to connect and send command to " ++ s.name ++ ": " ++ errStr e)),
        session := { s with client := none },
        trace := ev ++ [Event.resolveDevice s.address, Event.establishConnection 10 3] }
    | none =>
      let h := t.freshHandle
      let pending : Except PyError Unit :=
        match t.ackWrite with
        | none => .ok ()
        | some e => .error (.updateFailed
            ("Failed to connect and send command to " ++ s.name ++ ": " ++ errStr e))
      let ev2 := ev ++ [Event.resolveDevice s.address, Event.establishConnection 10 3,
        Event.writeChar h GIRA_COMMAND_CHARACTERISTIC_UUID command true]
      if t.finalConnected then
        match t.finalDisconnect with
        | some e2 =>
          { result := .error (.transport e2),
            session := { s with client := some h },
            trace := ev2 ++ [Event.disconnect h] }
        | none =>
          { result := pending,
            session := { s with client := none },
            trace := ev2 ++ [Event.disconnect h] }
      else
        { result := pending,
          session := { s with client := none },
          trace := ev2 }

/-- Embedding of `GiraBLEClient.send_command` (src/gira_ble.py lines 134-187).
Under the session lock: when a cached handle exists and reports connected,
write the command unacknowledged (response=False) and return on success; on
BleakError or TimeoutError, disconnect the cached handle — an unguarded await,
so a disconnect failure propagates and leaves `self._client` cached — then
clear `self._client` and fall through to the fresh path. -/
def send_command (s : Session) (t : Transport) (command : List Nat) : SendResult :=
  match s.client with
  | some h =>
    if t.warmConnected then
      let ev := [Event.writeChar h GIRA_COMMAND_CHARACTERISTIC_UUID command false]
      match t.warmWrite with
      | none => { result := .ok (), session := s, trace := ev }
      | some _ =>
        let ev2 := ev ++ [Event.disconnect h]
        match t.warmDisconnect with
        | some e2 => { result := .error (.transport e2), session := s, trace := ev2 }
        | none => send_command_fresh { s with client := none } t command ev2
    else
      send_command_fresh s t command []
  | none => send_command_fresh s t command []

/-- Whether a run reaches the fresh connection attempt (the
`establish_connection` call): the warm path must be skipped (no cached handle
or not connected) or fall through (warm write fails and the warm disconnect
succeeds), and the device must resolve. -/
def reachesFreshConnect (s : Session) (t : Transport) : Bool :=
  t.resolved &&
    match s.client with
    | none => true
    | some _ =>
      if t.warmConnected then
        match t.warmWrite with
        | none => false
        | some _ => t.warmDisconnect.isNone
      else true

/-- Number of acknowledged (response=True) characteristic writes in a trace. -/
def countAckWrites (tr : List Event) : Nat :=
  tr.countP (fun e =>
    match e with
    | .writeChar _ _ _ true => true
    | _ => false)

/-- Whether an event is an unacknowledged (response=False) characteristic
write, i.e. a warm-path direct write. -/
def isUnackWrite (e : Event) : Bool :=
  match e with
  | .writeChar _ _ _ false => true
  | _ => false

/-- State of the host `DataUpdateCoordinator` the broadcast path pushes into:
the last stored position and the registered observers (by id). -/
structure Coordinator where
  data : Option Nat
  listeners : List Nat
deriving DecidableEq, Repr

/-- Modelled from the spec: the host coordinator method
`async_set_update_data` called by `handle_broadcast` is framework code outside
src/.  Per the spec (§4.4 `ingest`, §9 design note), pushing a decoded
position stores it as current and notifies all registered observers
unconditionally, on every valid reading.  Returns the new coordinator state
and the observers notified. -/
def async_set_update_data (c : Coordinator) (position : Nat) : Coordinator × List Nat :=
  ({ c with data := some position }, c.listeners)

/-- Embedding of `GiraBLEClient.handle_broadcast` (src/gira_ble.py lines
116-132): decode the advertisement; when the decoder yields a position, push
it into the coordinator; otherwise do nothing.  Returns the coordinator state
and the list of observers notified. -/
def handle_broadcast (c : Coordinator) (service_info : BluetoothServiceInfoBleak) :
    Coordinator × List Nat :=
  match parse_gira_broadcast service_info with
  | some position => async_set_update_data c position
  | none => (c, [])

/-- The decoded position formula never exceeds 100, for any byte value. -/
theorem pyRound_pos_le_100 (raw : Nat) : pyRound (100 * (255 - raw)) 255 ≤ 100 := by
  have h : 2 * (100 * (255 - raw)) + 255 ≤ 51255 := by
    have := Nat.sub_le 255 raw
    omega
  calc pyRound (100 * (255 - raw)) 255
      = (2 * (100 * (255 - raw)) + 255) / 510 := rfl
    _ ≤ 51255 / 510 := Nat.div_le_div_right h
    _ = 100 := by norm_num

/-- Unfolding of the decoder once the manufacturer lookup is known to hit. -/
theorem parse_eq_of_lookup_some (si : BluetoothServiceInfoBleak) (md : List Nat)
    (h : dict_get si.manufacturer_data GIRA_MANUFACTURER_ID = some md) :
    parse_gira_broadcast si =
      if md.isEmpty then none
      else if !(BROADCAST_HEADER.isPrefixOf md) || md.length != 8 then none
      else some (pyRound (100 * (255 - md.getD 7 0)) 255) := by
  unfold parse_gira_broadcast
  rw [h]

/-- Unfolding of the decoder once the manufacturer lookup is known to miss. -/
theorem parse_eq_of_lookup_none (si : BluetoothServiceInfoBleak)
    (h : dict_get si.manufacturer_data GIRA_MANUFACTURER_ID = none) :
    parse_gira_broadcast si = none := by
  unfold parse_gira_broadcast
  rw [h]

/-- On an in-range percentage, `generate_position_command` returns the
SET_POSITION frame with the percentage as the value byte. -/
theorem generate_position_command_ok (p : Int) (h0 : 0 ≤ p) (h100 : p ≤ 100) :
    generate_position_command p
      = .ok [0xF6, 0x03, 0x20, 0x01, 0xFC, 0x10, 0x01, p.toNat] := by
  unfold generate_position_command
  rw [if_neg (not_not_intro ⟨h0, h100⟩)]
  have h255 : p.toNat ≤ 255 := by omega
  simp [_generate_command, to_bytes_1, h255, COMMAND_HEADER, COMMAND_SUFFIX,
    PROPERTY_ID_SET_POSITION]

/-- C1: for every valid 8-byte Gira broadcast payload under manufacturer id
1412 with the correct 7-byte header, the decoder returns
`round(100 * (255 - raw) / 255)` where `raw` is the byte at index 7; the
result always lies in [0, 100], and raw 0x00 yields 100, 0x40 yields 75,
0x80 yields 50, 0xBF yields 25, 0xFF yields 0. -/
theorem C1_decode_formula (si : BluetoothServiceInfoBleak) (raw : Nat)
    (hraw : raw ≤ 255)
    (hmd : dict_get si.manufacturer_data GIRA_MANUFACTURER_ID
      = some (BROADCAST_HEADER ++ [raw])) :
    parse_gira_broadcast si = some (pyRound (100 * (255 - raw)) 255) ∧
    pyRound (100 * (255 - raw)) 255 ≤ 100 ∧
    pyRound (100 * (255 - 0x00)) 255 = 100 ∧
    pyRound (100 * (255 - 0x40)) 255 = 75 ∧
    pyRound (100 * (255 - 0x80)) 255 = 50 ∧
    pyRound (100 * (255 - 0xBF)) 255 = 25 ∧
    pyRound (100 * (255 - 0xFF)) 255 = 0 := by
  refine ⟨?_, pyRound_pos_le_100 raw, by decide, by decide, by decide, by decide, by decide⟩
  rw [parse_eq_of_lookup_some si _ hmd]
  rfl

/-- Witness for C1 at raw byte 0x40. -/
theorem C1_decode_formula_witness :
    parse_gira_broadcast ⟨[(1412, BROADCAST_HEADER ++ [0x40])]⟩ = some 75 := by
  have h := C1_decode_formula ⟨[(1412, BROADCAST_HEADER ++ [0x40])]⟩ 0x40
    (by decide) (by decide)
  exact h.1.trans (by decide)

/-- C2 counterexample: a 9-byte payload under manufacturer id 1412 that
starts with the correct 7-byte header is at least 8 bytes long, so the claim
as stated requires a decoded Position, yet the decoder returns none (the
source requires length exactly 8, not at least 8). -/
theorem C2_counterexample :
    parse_gira_broadcast ⟨[(1412, BROADCAST_HEADER ++ [0, 0])]⟩ = none ∧
    dict_get [(1412, BROADCAST_HEADER ++ [0, 0])] GIRA_MANUFACTURER_ID
      = some (BROADCAST_HEADER ++ [0, 0]) ∧
    BROADCAST_HEADER.isPrefixOf (BROADCAST_HEADER ++ [0, 0]) = true ∧
    (BROADCAST_HEADER ++ [0, 0]).length = 9 := by decide

/-- C2 (amended): the decoder is total by construction and returns none
exactly when the manufacturer id is missing, or the payload length differs
from 8 (in particular when shorter, including empty), or the payload does not
start with the 7-byte header; any decoded position is a valid Position,
at most 100. -/
theorem C2_decode_total_none_iff (si : BluetoothServiceInfoBleak) :
    (dict_get si.manufacturer_data GIRA_MANUFACTURER_ID = none →
      parse_gira_broadcast si = none) ∧
    (∀ md, dict_get si.manufacturer_data GIRA_MANUFACTURER_ID = some md →
      (parse_gira_broadcast si = none ↔
        md.length ≠ 8 ∨ BROADCAST_HEADER.isPrefixOf md = false)) ∧
    (∀ p, parse_gira_broadcast si = some p → p ≤ 100) := by
  refine ⟨?_, ?_, ?_⟩
  · intro h
    exact parse_eq_of_lookup_none si h
  · intro md hmd
    rw [parse_eq_of_lookup_some si md hmd]
    cases hie : md.isEmpty
    · cases hpre : BROADCAST_HEADER.isPrefixOf md <;>
        cases hlen : md.length == 8 <;>
          simp_all
    · have hnil : md = [] := by simpa using hie
      subst hnil
      simp
  · intro p hp
    cases hd : dict_get si.manufacturer_data GIRA_MANUFACTURER_ID with
    | none => rw [parse_eq_of_lookup_none si hd] at hp; cases hp
    | some md =>
      rw [parse_eq_of_lookup_some si md hd] at hp
      by_cases hie : md.isEmpty = true
      · rw [if_pos hie] at hp; cases hp
      · rw [if_neg hie] at hp
        by_cases hc : (!(BROADCAST_HEADER.isPrefixOf md) || md.length != 8) = true
        · rw [if_pos hc] at hp; cases hp
        · rw [if_neg hc] at hp
          cases hp
          exact pyRound_pos_le_100 _

/-- Witness for C2 (amended): a payload with the wrong header decodes to
none. -/
theorem C2_decode_total_none_iff_witness :
    parse_gira_broadcast ⟨[(1412, [1, 2, 3])]⟩ = none :=
  ((C2_decode_total_none_iff ⟨[(1412, [1, 2, 3])]⟩).2.1 [1, 2, 3] (by decide)).mpr
    (Or.inl (by decide))

/-- C3: `generate_position_command` fails with ValueError for every
percentage outside [0, 100] — in particular -1 and 101 — and never clamps;
for every percentage in [0, 100] — in particular 0 and 100 — it succeeds and
the value byte of the returned frame equals the percentage. -/
theorem C3_encode_position_range (p : Int) :
    ((p < 0 ∨ 100 < p) →
      generate_position_command p = .error "Percentage must be between 0 and 100.") ∧
    (0 ≤ p → p ≤ 100 →
      generate_position_command p
        = .ok [0xF6, 0x03, 0x20, 0x01, 0xFC, 0x10, 0x01, p.toNat] ∧
      ([0xF6, 0x03, 0x20, 0x01, 0xFC, 0x10, 0x01, p.toNat] : List Nat).getLast?
        = some p.toNat ∧
      (p.toNat : Int) = p) ∧
    generate_position_command (-1) = .error "Percentage must be between 0 and 100." ∧
    generate_position_command 101 = .error "Percentage must be between 0 and 100." ∧
    generate_position_command 0 = .ok [0xF6, 0x03, 0x20, 0x01, 0xFC, 0x10, 0x01, 0] ∧
    generate_position_command 100 = .ok [0xF6, 0x03, 0x20, 0x01, 0xFC, 0x10, 0x01, 100] := by
  refine ⟨?_, ?_, by decide, by decide, by decide, by decide⟩
  · intro h
    unfold generate_position_command
    rw [if_pos (by omega)]
  · intro h0 h100
    exact ⟨generate_position_command_ok p h0 h100, rfl, Int.toNat_of_nonneg h0⟩

/-- Witness for C3 at percentage -1. -/
theorem C3_encode_position_range_witness :
    generate_position_command (-1) = .error "Percentage must be between 0 and 100." :=
  (C3_encode_position_range (-1)).1 (Or.inl (by decide))

/-- C4: for every property id and value in [0, 255], `_generate_command`
returns exactly the 8-byte frame F6 03 20 01, property id, 10 01, value; and
each outbound intent maps to exactly one such frame: move-up MOVE(0xFF)/0x00,
move-down MOVE(0xFF)/0x01, stop STOP(0xFD)/0x00, step-up STEP(0xFE)/0x00,
step-down STEP(0xFE)/0x01, set-absolute-position(p) SET_POSITION(0xFC)/p, and
set-ventilation-position SET_POSITION(0xFC)/50. -/
theorem C4_frame_layout (property_id value : Nat)
    (hp : property_id ≤ 255) (hv : value ≤ 255) :
    _generate_command property_id value
      = .ok [0xF6, 0x03, 0x20, 0x01, property_id, 0x10, 0x01, value] ∧
    ([0xF6, 0x03, 0x20, 0x01, property_id, 0x10, 0x01, value] : List Nat).length = 8 ∧
    send_up_command_frame = .ok [0xF6, 0x03, 0x20, 0x01, 0xFF, 0x10, 0x01, 0x00] ∧
    send_down_command_frame = .ok [0xF6, 0x03, 0x20, 0x01, 0xFF, 0x10, 0x01, 0x01] ∧
    send_stop_command_frame = .ok [0xF6, 0x03, 0x20, 0x01, 0xFD, 0x10, 0x01, 0x00] ∧
    send_step_up_command_frame = .ok [0xF6, 0x03, 0x20, 0x01, 0xFE, 0x10, 0x01, 0x00] ∧
    send_step_down_command_frame = .ok [0xF6, 0x03, 0x20, 0x01, 0xFE, 0x10, 0x01, 0x01] ∧
    (∀ q : Int, 0 ≤ q → q ≤ 100 →
      set_absolute_position_frame q
        = .ok [0xF6, 0x03, 0x20, 0x01, 0xFC, 0x10, 0x01, q.toNat]) ∧
    set_ventilation_position_frame = .ok [0xF6, 0x03, 0x20, 0x01, 0xFC, 0x10, 0x01, 50] := by
  refine ⟨?_, rfl, rfl, rfl, rfl, rfl, rfl, ?_, rfl⟩
  · simp [_generate_command, to_bytes_1, hp, hv, COMMAND_HEADER, COMMAND_SUFFIX]
  · intro q h0 h100
    exact generate_position_command_ok q h0 h100

/-- Witness for C4 at property id 0xFF and value 0. -/
theorem C4_frame_layout_witness :
    _generate_command 0xFF 0x00 = .ok [0xF6, 0x03, 0x20, 0x01, 0xFF, 0x10, 0x01, 0x00] :=
  (C4_frame_layout 0xFF 0x00 (by decide) (by decide)).1

/-- C8: `handle_broadcast` is a no-op on the coordinator state when the
decoder yields none; when the decoder yields a position it stores it as
current and notifies all observers unconditionally, in particular also when
the new position equals the previously stored one. -/
theorem C8_ingest_notify (c : Coordinator) (si : BluetoothServiceInfoBleak) :
    (parse_gira_broadcast si = none → handle_broadcast c si = (c, [])) ∧
    (∀ p, parse_gira_broadcast si = some p →
      (handle_broadcast c si).1 = { c with data := some p } ∧
      (handle_broadcast c si).2 = c.listeners) ∧
    (∀ p, parse_gira_broadcast si = some p → c.data = some p →
      (handle_broadcast c si).2 = c.listeners) := by
  refine ⟨?_, ?_, ?_⟩
  · intro h
    unfold handle_broadcast
    rw [h]
  · intro p hp
    unfold handle_broadcast
    rw [hp]
    exact ⟨rfl, rfl⟩
  · intro p hp _
    unfold handle_broadcast
    rw [hp]
    rfl

/-- The fresh-path trace extends the events accumulated before it. -/
theorem fresh_trace_append (s : Session) (t : Transport) (cmd : List Nat)
    (ev : List Event) :
    ∃ rest, (send_command_fresh s t cmd ev).trace = ev ++ rest := by
  rcases t with ⟨wc, ww, wd, res, est, fh, aw, fc, fd⟩
  cases res <;> cases est <;> cases aw <;> cases fc <;> cases fd <;>
    simp [send_command_fresh]

/-- The fresh path always resolves the device first. -/
theorem fresh_resolve_mem (s : Session) (t : Transport) (cmd : List Nat)
    (ev : List Event) :
    Event.resolveDevice s.address ∈ (send_command_fresh s t cmd ev).trace := by
  rcases t with ⟨wc, ww, wd, res, est, fh, aw, fc, fd⟩
  cases res <;> cases est <;> cases aw <;> cases fc <;> cases fd <;>
    simp [send_command_fresh]

/-- When the device resolves, the fresh path attempts the bounded
connection (timeout 10, max_attempts 3). -/
theorem fresh_establish_mem (s : Session) (t : Transport) (cmd : List Nat)
    (ev : List Event) (hres : t.resolved = true) :
    Event.establishConnection 10 3 ∈ (send_command_fresh s t cmd ev).trace := by
  rcases t with ⟨wc, ww, wd, res, est, fh, aw, fc, fd⟩
  cases res <;> cases est <;> cases aw <;> cases fc <;> cases fd <;>
    simp_all [send_command_fresh]

/-- When the fresh connection succeeded and still reports connected in the
finally block, the fresh path attempts to disconnect it. -/
theorem fresh_disconnect_mem (s : Session) (t : Transport) (cmd : List Nat)
    (ev : List Event) (hres : t.resolved = true) (hest : t.establishErr = none)
    (hfc : t.finalConnected = true) :
    Event.disconnect t.freshHandle ∈ (send_command_fresh s t cmd ev).trace := by
  rcases t with ⟨wc, ww, wd, res, est, fh, aw, fc, fd⟩
  cases res <;> cases est <;> cases aw <;> cases fc <;> cases fd <;>
    simp_all [send_command_fresh]

/-- When the device resolves and the finally-block disconnect does not itself
raise, the fresh path leaves the cached handle cleared. -/
theorem fresh_client_none (s : Session) (t : Transport) (cmd : List Nat)
    (ev : List Event) (hres : t.resolved = true)
    (hfd : t.finalConnected = true → t.finalDisconnect = none) :
    (send_command_fresh s t cmd ev).session.client = none := by
  rcases t with ⟨wc, ww, wd, res, est, fh, aw, fc, fd⟩
  cases res <;> cases est <;> cases aw <;> cases fc <;> cases fd <;>
    simp_all [send_command_fresh]

/-- A connect failure after the bounded attempts surfaces as UpdateFailed and
leaves the cached handle cleared unconditionally. -/
theorem fresh_establish_err (s : Session) (t : Transport) (cmd : List Nat)
    (ev : List Event) (e : TransportError) (hres : t.resolved = true)
    (hest : t.establishErr = some e) :
    (send_command_fresh s t cmd ev).result
      = .error (.updateFailed
          ("Failed to connect and send command to " ++ s.name ++ ": " ++ errStr e)) ∧
    (send_command_fresh s t cmd ev).session.client = none := by
  rcases t with ⟨wc, ww, wd, res, est, fh, aw, fc, fd⟩
  cases res <;> cases est <;> cases aw <;> cases fc <;> cases fd <;>
    simp_all [send_command_fresh]

/-- An acknowledged-write failure after a successful connect surfaces as
UpdateFailed with the same message format as a connect failure, provided the
finally-block disconnect does not itself raise. -/
theorem fresh_ack_write_err (s : Session) (t : Transport) (cmd : List Nat)
    (ev : List Event) (e : TransportError) (hres : t.resolved = true)
    (hest : t.establishErr = none) (haw : t.ackWrite = some e)
    (hfd : t.finalConnected = true → t.finalDisconnect = none) :
    (send_command_fresh s t cmd ev).result
      = .error (.updateFailed
          ("Failed to connect and send command to " ++ s.name ++ ": " ++ errStr e)) := by
  rcases t with ⟨wc, ww, wd, res, est, fh, aw, fc, fd⟩
  cases res <;> cases est <;> cases aw <;> cases fc <;> cases fd <;>
    simp_all [send_command_fresh]

/-- The fresh path performs exactly one acknowledged write when the connect
succeeds, and none otherwise, beyond those already in the accumulated
events. -/
theorem fresh_countAckWrites (s : Session) (t : Transport) (cmd : List Nat)
    (ev : List Event) :
    countAckWrites (send_command_fresh s t cmd ev).trace ≤ countAckWrites ev + 1 := by
  rcases t with ⟨wc, ww, wd, res, est, fh, aw, fc, fd⟩
  cases res <;> cases est <;> cases aw <;> cases fc <;> cases fd <;>
    simp [send_command_fresh, countAckWrites, List.countP_append, List.countP_cons,
      List.countP_nil]

/-- Number of unacknowledged (warm-path) writes in a trace. -/
def countUnackWrites (tr : List Event) : Nat :=
  tr.countP (fun e => isUnackWrite e)

/-- The fresh path emits no unacknowledged write: those only ever come from
the warm path. -/
theorem fresh_countUnack (s : Session) (t : Transport) (cmd : List Nat)
    (ev : List Event) :
    countUnackWrites (send_command_fresh s t cmd ev).trace = countUnackWrites ev := by
  rcases t with ⟨wc, ww, wd, res, est, fh, aw, fc, fd⟩
  cases res <;> cases est <;> cases aw <;> cases fc <;> cases fd <;>
    simp [send_command_fresh, countUnackWrites, List.countP_append, List.countP_cons,
      List.countP_nil, isUnackWrite]

/-- A send that starts with no cached handle goes straight to the fresh
path. -/
theorem send_command_of_client_none (s : Session) (t : Transport) (cmd : List Nat)
    (h : s.client = none) :
    send_command s t cmd = send_command_fresh s t cmd [] := by
  unfold send_command
  rw [h]

/-- A send whose warm-path check fails (cached handle not connected) goes to
the fresh path without touching the cached handle. -/
theorem send_command_of_not_connected (s : Session) (t : Transport) (cmd : List Nat)
    (hd : Handle) (h : s.client = some hd) (hw : t.warmConnected = false) :
    send_command s t cmd = send_command_fresh s t cmd [] := by
  unfold send_command
  rw [h, hw]
  simp

/-- A send whose warm direct write fails and whose warm disconnect succeeds
falls through to the fresh path with the handle cleared. -/
theorem send_command_of_fallthrough (s : Session) (t : Transport) (cmd : List Nat)
    (hd : Handle) (e : TransportError) (h : s.client = some hd)
    (hw : t.warmConnected = true) (hww : t.warmWrite = some e)
    (hwd : t.warmDisconnect = none) :
    send_command s t cmd = send_command_fresh { s with client := none } t cmd
      [Event.writeChar hd GIRA_COMMAND_CHARACTERISTIC_UUID cmd false,
       Event.disconnect hd] := by
  unfold send_command
  rw [h, hw, hww, hwd]
  simp

/-- A send whose warm direct write succeeds returns at once, leaving the
cached handle in place and closing nothing. -/
theorem send_command_warm_ok (s : Session) (t : Transport) (cmd : List Nat)
    (h : Handle) (hc : s.client = some h) (hw : t.warmConnected = true)
    (hww : t.warmWrite = none) :
    send_command s t cmd =
      ⟨.ok (), s, [Event.writeChar h GIRA_COMMAND_CHARACTERISTIC_UUID cmd false]⟩ := by
  unfold send_command
  rw [hc, hw, hww]
  rfl

/-- A send whose warm direct write and warm disconnect both fail raises the
disconnect error, leaving the cached handle in place. -/
theorem send_command_warm_disc_fail (s : Session) (t : Transport) (cmd : List Nat)
    (h : Handle) (e e2 : TransportError) (hc : s.client = some h)
    (hw : t.warmConnected = true) (hww : t.warmWrite = some e)
    (hwd : t.warmDisconnect = some e2) :
    send_command s t cmd =
      ⟨.error (.transport e2), s,
       [Event.writeChar h GIRA_COMMAND_CHARACTERISTIC_UUID cmd false,
        Event.disconnect h]⟩ := by
  unfold send_command
  rw [hc, hw, hww, hwd]
  rfl

/-- A run that reaches the fresh connection attempt resolves the device and
is one of: warm path skipped, or warm write failed with the warm disconnect
succeeding. -/
theorem send_command_eq_fresh (s : Session) (t : Transport) (cmd : List Nat)
    (hreach : reachesFreshConnect s t = true) :
    t.resolved = true ∧
    ((send_command s t cmd = send_command_fresh s t cmd []) ∨
      (∃ hd, s.client = some hd ∧
        send_command s t cmd = send_command_fresh { s with client := none } t cmd
          [Event.writeChar hd GIRA_COMMAND_CHARACTERISTIC_UUID cmd false,
           Event.disconnect hd])) := by
  unfold reachesFreshConnect at hreach
  cases hcl : s.client with
  | none =>
    rw [hcl] at hreach
    simp at hreach
    exact ⟨hreach, Or.inl (send_command_of_client_none s t cmd hcl)⟩
  | some hd =>
    rw [hcl] at hreach
    cases hwc : t.warmConnected with
    | false =>
      simp [hwc] at hreach
      exact ⟨hreach, Or.inl (send_command_of_not_connected s t cmd hd hcl hwc)⟩
    | true =>
      cases hww : t.warmWrite with
      | none => simp [hwc, hww] at hreach
      | some e =>
        cases hwd : t.warmDisconnect with
        | some e2 => simp [hwc, hww, hwd] at hreach
        | none =>
          simp [hwc, hww, hwd] at hreach
          exact ⟨hreach, Or.inr ⟨hd, rfl,
            send_command_of_fallthrough s t cmd hd e hcl hwc hww hwd⟩⟩

/-- No run of `send_command` performs more than one acknowledged write. -/
theorem send_countAckWrites_le_one (s : Session) (t : Transport) (cmd : List Nat) :
    countAckWrites (send_command s t cmd).trace ≤ 1 := by
  cases hcl : s.client with
  | none =>
    rw [send_command_of_client_none s t cmd hcl]
    have h := fresh_countAckWrites s t cmd []
    simpa [countAckWrites] using h
  | some hd =>
    cases hwc : t.warmConnected with
    | false =>
      rw [send_command_of_not_connected s t cmd hd hcl hwc]
      have h := fresh_countAckWrites s t cmd []
      simpa [countAckWrites] using h
    | true =>
      unfold send_command
      rw [hcl, hwc]
      cases hww : t.warmWrite with
      | none => simp [countAckWrites, isUnackWrite]
      | some e =>
        cases hwd : t.warmDisconnect with
        | some e2 => simp [countAckWrites]
        | none =>
          simp only []
          have h := fresh_countAckWrites { s with client := none } t cmd
            [Event.writeChar hd GIRA_COMMAND_CHARACTERISTIC_UUID cmd false,
             Event.disconnect hd]
          simpa [countAckWrites, List.countP_cons, List.countP_nil] using h

/-- C5 counterexample: a send completed through the warm direct-write path
(cached handle connected, unacknowledged write succeeds) closes nothing and
leaves the cached handle in place, so the claim that every completed send
attempts a close of a still-connected handle and clears the cached handle
does not hold of this run. -/
theorem C5_counterexample :
    (send_command ⟨"N", "A", some 7⟩
      ⟨true, none, none, true, none, 3, none, true, none⟩ [1]).result = .ok () ∧
    (send_command ⟨"N", "A", some 7⟩
      ⟨true, none, none, true, none, 3, none, true, none⟩ [1]).session.client = some 7 ∧
    Event.disconnect 7 ∉
      (send_command ⟨"N", "A", some 7⟩
        ⟨true, none, none, true, none, 3, none, true, none⟩ [1]).trace := by decide

/-- C5 (amended): for every send that reaches the fresh connection attempt,
the session attempts to close the fresh connection whenever it still reports
itself connected, and the cached handle is cleared before the session lock is
released provided that close does not itself raise; after a connect failure
that exhausts all attempts the cached handle is empty unconditionally and the
failure surfaces as UpdateFailed, and a subsequent send with an empty handle
performs a fresh resolve and, when the device resolves, a fresh connect. -/
theorem C5_teardown_and_recovery (s : Session) (t : Transport) (cmd : List Nat)
    (hreach : reachesFreshConnect s t = true) :
    (t.establishErr = none → t.finalConnected = true →
      Event.disconnect t.freshHandle ∈ (send_command s t cmd).trace) ∧
    ((t.finalConnected = true → t.finalDisconnect = none) →
      (send_command s t cmd).session.client = none) ∧
    (∀ e, t.establishErr = some e →
      (send_command s t cmd).session.client = none ∧
      (send_command s t cmd).result = .error (.updateFailed
        ("Failed to connect and send command to " ++ s.name ++ ": " ++ errStr e))) ∧
    (∀ s2 t2 cmd2, s2.client = none →
      Event.resolveDevice s2.address ∈ (send_command s2 t2 cmd2).trace ∧
      (t2.resolved = true →
        Event.establishConnection 10 3 ∈ (send_command s2 t2 cmd2).trace)) := by
  obtain ⟨hres, hcase⟩ := send_command_eq_fresh s t cmd hreach
  refine ⟨?_, ?_, ?_, ?_⟩
  · intro hest hfc
    rcases hcase with heq | ⟨hd, hcl, heq⟩ <;> rw [heq] <;>
      exact fresh_disconnect_mem _ t cmd _ hres hest hfc
  · intro hfd
    rcases hcase with heq | ⟨hd, hcl, heq⟩ <;> rw [heq] <;>
      exact fresh_client_none _ t cmd _ hres hfd
  · intro e hest
    rcases hcase with heq | ⟨hd, hcl, heq⟩ <;> rw [heq]
    · exact ⟨(fresh_establish_err s t cmd [] e hres hest).2,
        (fresh_establish_err s t cmd [] e hres hest).1⟩
    · exact ⟨(fresh_establish_err _ t cmd _ e hres hest).2,
        (fresh_establish_err _ t cmd _ e hres hest).1⟩
  · intro s2 t2 cmd2 h2
    rw [send_command_of_client_none s2 t2 cmd2 h2]
    exact ⟨fresh_resolve_mem s2 t2 cmd2 [],
      fun hres2 => fresh_establish_mem s2 t2 cmd2 [] hres2⟩

/-- Witness for C5 (amended): a connect-exhausted run leaves the handle
empty. -/
theorem C5_teardown_and_recovery_witness :
    (send_command ⟨"N", "A", none⟩
      ⟨false, none, none, true, some (.bleak "x"), 3, none, false, none⟩
      [1]).session.client = none :=
  ((C5_teardown_and_recovery ⟨"N", "A", none⟩
      ⟨false, none, none, true, some (.bleak "x"), 3, none, false, none⟩ [1]
      (by decide)).2.2.1 (.bleak "x") rfl).1

/-- C6 counterexample: with a connected cached handle, a failing warm write
followed by a failing warm disconnect makes the send raise the disconnect
error itself — the disconnect error is not ignored, the handle is not
discarded, and the run never falls through to the fresh resolve path. -/
theorem C6_counterexample :
    (send_command ⟨"N", "A", some 7⟩
      ⟨true, some (.bleak "w"), some (.bleak "d"), true, none, 3, none, true, none⟩
      [1]).result = .error (.transport (.bleak "d")) ∧
    (send_command ⟨"N", "A", some 7⟩
      ⟨true, some (.bleak "w"), some (.bleak "d"), true, none, 3, none, true, none⟩
      [1]).session.client = some 7 ∧
    Event.resolveDevice "A" ∉
      (send_command ⟨"N", "A", some 7⟩
        ⟨true, some (.bleak "w"), some (.bleak "d"), true, none, 3, none, true, none⟩
        [1]).trace := by decide

/-- C6 (amended): when a cached handle exists and reports itself connected,
the send first attempts a direct write with no acknowledgement requested
(response=False); on any transport error or timeout during that write it
attempts an explicit disconnect of the cached handle; when that disconnect
succeeds the handle is cleared and the send falls through to the fresh
resolve-and-connect path instead of failing; when the disconnect itself
raises, its error propagates to the caller and the cached handle is not
cleared. -/
theorem C6_warm_path_behavior (s : Session) (t : Transport) (cmd : List Nat)
    (h : Handle) (hc : s.client = some h) (hw : t.warmConnected = true) :
    (send_command s t cmd).trace.head?
      = some (Event.writeChar h GIRA_COMMAND_CHARACTERISTIC_UUID cmd false) ∧
    (∀ e, t.warmWrite = some e →
      Event.disconnect h ∈ (send_command s t cmd).trace ∧
      (t.warmDisconnect = none →
        Event.resolveDevice s.address ∈ (send_command s t cmd).trace) ∧
      (∀ e2, t.warmDisconnect = some e2 →
        (send_command s t cmd).result = .error (.transport e2) ∧
        (send_command s t cmd).session.client = some h ∧
        Event.resolveDevice s.address ∉ (send_command s t cmd).trace)) := by
  constructor
  · cases hww : t.warmWrite with
    | none =>
      rw [send_command_warm_ok s t cmd h hc hw hww]
      rfl
    | some e =>
      cases hwd : t.warmDisconnect with
      | none =>
        rw [send_command_of_fallthrough s t cmd h e hc hw hww hwd]
        obtain ⟨rest, hr⟩ := fresh_trace_append { s with client := none } t cmd
          [Event.writeChar h GIRA_COMMAND_CHARACTERISTIC_UUID cmd false,
           Event.disconnect h]
        rw [hr]
        rfl
      | some e2 =>
        rw [send_command_warm_disc_fail s t cmd h e e2 hc hw hww hwd]
        rfl
  · intro e hww
    cases hwd : t.warmDisconnect with
    | none =>
      rw [send_command_of_fallthrough s t cmd h e hc hw hww hwd]
      obtain ⟨rest, hr⟩ := fresh_trace_append { s with client := none } t cmd
        [Event.writeChar h GIRA_COMMAND_CHARACTERISTIC_UUID cmd false,
         Event.disconnect h]
      refine ⟨?_, ?_, ?_⟩
      · rw [hr]
        simp
      · intro _
        exact fresh_resolve_mem { s with client := none } t cmd _
      · intro e2 hwd2
        exact Option.noConfusion hwd2
    | some e2 =>
      rw [send_command_warm_disc_fail s t cmd h e e2 hc hw hww hwd]
      refine ⟨by simp, ?_, ?_⟩
      · intro hwd2
        exact Option.noConfusion hwd2
      · intro e3 hwd3
        obtain rfl : e2 = e3 := Option.some.inj hwd3
        exact ⟨rfl, hc, by simp⟩

/-- Witness for C6 (amended): a failing warm write with a succeeding warm
disconnect falls through to the fresh resolve path. -/
theorem C6_warm_path_behavior_witness :
    Event.resolveDevice "A" ∈
      (send_command ⟨"N", "A", some 7⟩
        ⟨true, some (.bleak "w"), none, true, none, 3, none, true, none⟩
        [1]).trace :=
  ((C6_warm_path_behavior ⟨"N", "A", some 7⟩
      ⟨true, some (.bleak "w"), none, true, none, 3, none, true, none⟩ [1] 7
      rfl rfl).2 (.bleak "w") rfl).2.1 rfl

/-- C7 counterexample: a run whose bounded connection attempts are exhausted
with cause "boom" and a run that connects successfully but whose acknowledged
write fails with cause "boom" surface the very same error value — one
UpdateFailed with one message format — so a write failure after a successful
connect is not distinct from the connect-exhaustion failure. -/
theorem C7_counterexample :
    (send_command ⟨"N", "A", none⟩
      ⟨false, none, none, true, some (.bleak "boom"), 3, none, false, none⟩
      [1]).result =
    (send_command ⟨"N", "A", none⟩
      ⟨false, none, none, true, none, 3, some (.bleak "boom"), false, none⟩
      [1]).result ∧
    (send_command ⟨"N", "A", none⟩
      ⟨false, none, none, true, some (.bleak "boom"), 3, none, false, none⟩
      [1]).result = .error (.updateFailed
        ("Failed to connect and send command to " ++ "N" ++ ": " ++ "boom")) :=
  ⟨rfl, rfl⟩

/-- C7 (amended): a write failure or timeout after a successful connect,
provided the finally-block close does not itself raise (when that close
raises, its transport error replaces the pending failure and surfaces
instead), surfaces to the caller as the same UpdateFailed error — same
constructor and same message format — that a run uses when its bounded
connection attempts are exhausted with the same cause; the layer does not
distinguish a SendFailed from a ConnectFailed.  The write is not retried at
this layer: no run of `send_command` performs more than one acknowledged
write, and this run performs its single acknowledged write after the
successful fresh connect. -/
theorem C7_write_failure_surfacing (s : Session) (t : Transport) (cmd : List Nat)
    (hreach : reachesFreshConnect s t = true) (hest : t.establishErr = none) :
    (∀ e, t.ackWrite = some e → (t.finalConnected = true → t.finalDisconnect = none) →
      (send_command s t cmd).result = .error (.updateFailed
        ("Failed to connect and send command to " ++ s.name ++ ": " ++ errStr e)) ∧
      (∀ t2, reachesFreshConnect s t2 = true → t2.establishErr = some e →
        (send_command s t2 cmd).result = (send_command s t cmd).result)) ∧
    (∀ s3 t3 cmd3, countAckWrites (send_command s3 t3 cmd3).trace ≤ 1) := by
  obtain ⟨hres, hcase⟩ := send_command_eq_fresh s t cmd hreach
  refine ⟨?_, fun s3 t3 cmd3 => send_countAckWrites_le_one s3 t3 cmd3⟩
  intro e haw hfd
  have hr : (send_command s t cmd).result = .error (.updateFailed
      ("Failed to connect and send command to " ++ s.name ++ ": " ++ errStr e)) := by
    rcases hcase with heq | ⟨hd, hcl, heq⟩ <;> rw [heq]
    · exact fresh_ack_write_err s t cmd [] e hres hest haw hfd
    · exact fresh_ack_write_err _ t cmd _ e hres hest haw hfd
  refine ⟨hr, ?_⟩
  intro t2 hreach2 hest2
  obtain ⟨hres2, hcase2⟩ := send_command_eq_fresh s t2 cmd hreach2
  have hr2 : (send_command s t2 cmd).result = .error (.updateFailed
      ("Failed to connect and send command to " ++ s.name ++ ": " ++ errStr e)) := by
    rcases hcase2 with heq | ⟨hd, hcl, heq⟩ <;> rw [heq]
    · exact (fresh_establish_err s t2 cmd [] e hres2 hest2).1
    · exact (fresh_establish_err _ t2 cmd _ e hres2 hest2).1
  rw [hr, hr2]

/-- Witness for C7 (amended): a concrete post-connect write failure surfaces
as UpdateFailed with the shared message format. -/
theorem C7_write_failure_surfacing_witness :
    (send_command ⟨"N", "A", none⟩
      ⟨false, none, none, true, none, 3, some (.bleak "boom"), false, none⟩
      [1]).result = .error (.updateFailed
        ("Failed to connect and send command to " ++ "N" ++ ": " ++ errStr (.bleak "boom"))) :=
  (((C7_write_failure_surfacing ⟨"N", "A", none⟩
      ⟨false, none, none, true, none, 3, some (.bleak "boom"), false, none⟩ [1]
      (by decide) rfl).1 (.bleak "boom") rfl (by decide))).1

/-- C10 counterexample: a fresh-path send whose finally-block disconnect
itself raises completes (by raising) with the cached handle still set, so the
handle is not None after every completed fresh-path send. -/
theorem C10_counterexample :
    (send_command ⟨"N", "A", none⟩
      ⟨false, none, none, true, none, 3, none, true, some (.bleak "x")⟩
      [1]).session.client = some 3 ∧
    (send_command ⟨"N", "A", none⟩
      ⟨false, none, none, true, none, 3, none, true, some (.bleak "x")⟩
      [1]).result = .error (.transport (.bleak "x")) ∧
    Event.establishConnection 10 3 ∈
      (send_command ⟨"N", "A", none⟩
        ⟨false, none, none, true, none, 3, none, true, some (.bleak "x")⟩
        [1]).trace := by decide

/-- C10 (amended): after every send that reaches the fresh connection attempt
completes — whether the write succeeds or the run raises — the cached handle
is None, provided the finally-block close does not itself raise (the finally
clause clears the handle even on a successful acknowledged write);
consequently, under sequential use, a send that starts with an empty handle
never performs the warm unacknowledged (response=False) write and always
performs a fresh resolve. -/
theorem C10_fresh_clears_handle (s : Session) (t : Transport) (cmd : List Nat)
    (hreach : reachesFreshConnect s t = true)
    (hfd : t.finalConnected = true → t.finalDisconnect = none) :
    (send_command s t cmd).session.client = none ∧
    (∀ s2 t2 cmd2, s2.client = none →
      countUnackWrites (send_command s2 t2 cmd2).trace = 0 ∧
      (∀ x ∈ (send_command s2 t2 cmd2).trace, isUnackWrite x = false) ∧
      Event.resolveDevice s2.address ∈ (send_command s2 t2 cmd2).trace) := by
  obtain ⟨hres, hcase⟩ := send_command_eq_fresh s t cmd hreach
  refine ⟨?_, ?_⟩
  · rcases hcase with heq | ⟨hd, hcl, heq⟩ <;> rw [heq] <;>
      exact fresh_client_none _ t cmd _ hres hfd
  · intro s2 t2 cmd2 h2
    rw [send_command_of_client_none s2 t2 cmd2 h2]
    have hcu : countUnackWrites (send_command_fresh s2 t2 cmd2 []).trace = 0 :=
      fresh_countUnack s2 t2 cmd2 []
    refine ⟨hcu, ?_, fresh_resolve_mem s2 t2 cmd2 []⟩
    intro x hx
    have hnx := List.countP_eq_zero.mp hcu x hx
    simpa using hnx

/-- Witness for C10 (amended): a successful fresh-path send ends with the
handle cleared. -/
theorem C10_fresh_clears_handle_witness :
    (send_command ⟨"N", "A", none⟩
      ⟨false, none, none, true, none, 3, none, true, none⟩
      [1]).session.client = none :=
  (C10_fresh_clears_handle ⟨"N", "A", none⟩
      ⟨false, none, none, true, none, 3, none, true, none⟩ [1]
      (by decide) (by decide)).1

/-- Witness for C8: a duplicate in-range reading still notifies every
observer. -/
theorem C8_ingest_notify_witness :
    (handle_broadcast ⟨some 75, [1, 2]⟩ ⟨[(1412, BROADCAST_HEADER ++ [0x40])]⟩).2
      = [1, 2] :=
  (C8_ingest_notify ⟨some 75, [1, 2]⟩ ⟨[(1412, BROADCAST_HEADER ++ [0x40])]⟩).2.2 75
    (by decide) (by decide)

end Gira
